import Mathlib

/-!
Verification of the Comic-Scans python-service against its specification.

The service has three source files:
  * `scanner.py`       — tiered barcode scan orchestrator (`scan_barcode`),
                         result merging (`merge_results`), decode adapter
                         (`try_decode`), tier-6 routines (`upscale_and_clean`,
                         `deskew_and_decode`), quality gate
                         (`check_image_quality`).
  * `preprocessing.py` — image normalizer (`preprocess_image`,
                         `detect_barcode_region`, `enhance_image`).
  * `main.py`          — the HTTP endpoint (`scan_upc`).

Images, and the OpenCV / pyzbar primitives that operate on them (rotation,
thresholding, CLAHE, the quality-score floats, the barcode localizer, the
actual symbol decoder), are external C libraries from the point of view of
this service; we model them as an abstract image type `Img` together with an
environment structure supplying one deterministic function per primitive.
All control flow, merging, accumulation, early termination, gating, error
handling and response shaping — the logic that the specification describes —
is translated faithfully from the Python source below.
-/

/-! ## Data model: scan results (scanner.py) -/

/-- A scan result dictionary `{'main': ..., 'extension': ...}` as built by
`try_decode` / `merge_results` in scanner.py.  Python `None` is `none`; a
decoded payload string `s` is `some s`. -/
structure ScanResult where
  main : Option String
  extension : Option String
deriving DecidableEq

/-- Python truthiness of an optional string: `None` and the empty string are
falsy, every other string is truthy. -/
def truthy : Option String → Bool
  | none => false
  | some s => s != ""

/-- Python `a or b` restricted to optional strings: returns `a` when `a` is
truthy, otherwise `b`. -/
def pyOrStr (a b : Option String) : Option String :=
  if truthy a then a else b

/-- scanner.py lines 149-154: `merge_results(existing, new)` — per-field
Python `or` of the two dictionaries. -/
def merge_results (existing new : ScanResult) : ScanResult :=
  ⟨pyOrStr existing.main new.main, pyOrStr existing.extension new.extension⟩

/-- The guard `best_result['main'] and best_result['extension']` used at every
early-termination check inside `scan_barcode` (scanner.py lines 70, 79, 90,
101, 112, 127, 138, 144). -/
def bothSet (r : ScanResult) : Bool :=
  truthy r.main && truthy r.extension

/-- The initial accumulator `{'main': None, 'extension': None}`
(scanner.py line 63). -/
def emptyResult : ScanResult := ⟨none, none⟩

/-! ## The decode adapter (scanner.py `try_decode`) -/

/-- One symbol returned by `pyzbar.decode`: its `type` string (e.g. "UPCA",
"EAN13", "EAN5") and its decoded `data` payload. -/
structure ZBarSymbol where
  stype : String
  data : String
deriving DecidableEq

/-- The membership test `barcode.type in ['UPCA', 'UPCE', 'EAN13']`
(scanner.py line 229). -/
def isMainType (t : String) : Bool :=
  ["UPCA", "UPCE", "EAN13"].contains t

/-- The body of the `for barcode in barcodes` loop of `try_decode`
(scanner.py lines 227-232): a main-type symbol assigns `result['main']`,
an EAN5 symbol assigns `result['extension']`, anything else is ignored. -/
def updSymbol (r : ScanResult) (b : ZBarSymbol) : ScanResult :=
  if isMainType b.stype then ⟨some b.data, r.extension⟩
  else if b.stype = "EAN5" then ⟨r.main, some b.data⟩
  else r

/-! ## The scan environment: opaque OpenCV / pyzbar primitives -/

/-- Deterministic abstractions of the external primitives used by scanner.py.
Each field stands for one cv2 / pyzbar call; the service's logic never looks
inside these values. -/
structure ScanEnv (Img : Type) where
  /-- `pyzbar.decode(image, symbols=BARCODE_TYPES)` (scanner.py line 225). -/
  pyzbar : Img → List ZBarSymbol
  /-- `len(img.shape) == 3` (scanner.py lines 55, 96). -/
  isColor : Img → Bool
  /-- `cv2.cvtColor(img, cv2.COLOR_BGR2GRAY)`. -/
  cvtGray : Img → Img
  /-- The boolean verdict of `check_image_quality` (scanner.py lines 15-33):
  a conjunction of three float comparisons (Laplacian variance, contrast,
  Canny edge density) on the grayscale image, abstracted to its result. -/
  scannable : Img → Bool
  /-- `cv2.rotate(img, cv2.ROTATE_90_CLOCKWISE)`. -/
  rot90cw : Img → Img
  /-- `cv2.rotate(img, cv2.ROTATE_180)`. -/
  rot180 : Img → Img
  /-- `cv2.rotate(img, cv2.ROTATE_90_COUNTERCLOCKWISE)`. -/
  rot90ccw : Img → Img
  /-- `rotate_by_angle` (scanner.py lines 156-160): warpAffine by a small
  integer angle with white border. -/
  rotSmall : Img → Int → Img
  /-- The warpAffine rotation by the median Hough angle used at the end of
  `deskew_and_decode` (scanner.py lines 218-220). -/
  warpRotate : Img → Rat → Img
  /-- `cv2.threshold(img, t, 255, cv2.THRESH_BINARY)` at threshold `t`. -/
  threshold : Img → Nat → Img
  /-- `cv2.createCLAHE(clipLimit=2.0, tileGridSize=(8, 8)).apply(img)`. -/
  clahe : Img → Img
  /-- `img.shape[1]`, the pixel width (scanner.py line 169). -/
  width : Img → Nat
  /-- `cv2.resize(gray, None, fx=3, fy=3, interpolation=cv2.INTER_LINEAR)`
  (scanner.py line 172). -/
  resize3 : Img → Img
  /-- `cv2.GaussianBlur(img, (3, 3), 0)` (scanner.py line 184). -/
  gauss3 : Img → Img
  /-- `cv2.threshold(img, 0, 255, cv2.THRESH_BINARY + cv2.THRESH_OTSU)`. -/
  otsu : Img → Img
  /-- `cv2.bitwise_not(img)`. -/
  bitwiseNot : Img → Img
  /-- `cv2.blur(img, (5, 1))` (scanner.py line 193). -/
  hblur : Img → Img
  /-- The half-resize + Canny + HoughLines front half of `deskew_and_decode`
  (scanner.py lines 200-202), abstracted to the detected line angles in
  degrees (`np.degrees(theta)` per line), or `none` when `lines is None`. -/
  houghDegs : Img → Option (List Rat)

/-- scanner.py lines 224-233: `try_decode(image)` — fold the symbol-update
loop over the decoded symbols, starting from the empty result. -/
def try_decode {Img : Type} (env : ScanEnv Img) (image : Img) : ScanResult :=
  (env.pyzbar image).foldl updSymbol ⟨none, none⟩

/-- scanner.py lines 162-166: `rotate_image(img, angle)` for the four fixed
rotations; any other angle returns the image unchanged. -/
def rotate_image {Img : Type} (env : ScanEnv Img) (img : Img) (angle : Nat) : Img :=
  if angle = 90 then env.rot90cw img
  else if angle = 180 then env.rot180 img
  else if angle = 270 then env.rot90ccw img
  else img

/-! ## Tier-6 routines (scanner.py `upscale_and_clean`, `deskew_and_decode`)

Each routine returns, besides the result it hands back to the orchestrator,
the ordered list of `try_decode` results of every decode attempt it made
internally; this instruments the decode adapter with the call trace the
specification talks about. -/

/-- The `for thresh_val in [140, 160, 180, 120]` loop of `upscale_and_clean`
(scanner.py lines 177-181): try each fixed threshold in order, returning the
first result with a truthy `main`; results without a `main` are dropped by
the loop. -/
def uacLoop {Img : Type} (env : ScanEnv Img) (img : Img) :
    List Nat → Option ScanResult × List ScanResult
  | [] => (none, [])
  | t :: ts =>
    if truthy (try_decode env (env.threshold img t)).main then
      (some (try_decode env (env.threshold img t)), [try_decode env (env.threshold img t)])
    else
      ((uacLoop env img ts).1, try_decode env (env.threshold img t) :: (uacLoop env img ts).2)

/-- scanner.py lines 168-197: `upscale_and_clean(gray)` — upscale small
images, try fixed thresholds, then Otsu, inverted Otsu and a horizontal-blur
Otsu fallback.  (The source also takes an unused debug-name argument, which
is dropped.)  Returns the routine's result together with its internal decode
attempt trace. -/
def upscale_and_clean {Img : Type} (env : ScanEnv Img) (gray : Img) :
    ScanResult × List ScanResult :=
  let img := if env.width gray < 400 then env.resize3 gray else gray
  match uacLoop env img [140, 160, 180, 120] with
  | (some r, tr) => (r, tr)
  | (none, tr) =>
    let th := env.otsu (env.gauss3 img)
    let r1 := try_decode env th
    let p2 :=
      if truthy r1.main then (r1, [r1])
      else (try_decode env (env.bitwiseNot th), [r1, try_decode env (env.bitwiseNot th)])
    let p3 :=
      if truthy p2.1.main then p2
      else (try_decode env (env.otsu (env.hblur img)),
            p2.2 ++ [try_decode env (env.otsu (env.hblur img))])
    (p3.1, tr ++ p3.2)

/-- Insert a rational into an ascending list, keeping it ascending. -/
def insertSorted (x : Rat) : List Rat → List Rat
  | [] => [x]
  | y :: ys => if x ≤ y then x :: y :: ys else y :: insertSorted x ys

/-- Ascending insertion sort of a list of rationals. -/
def sortRats (l : List Rat) : List Rat :=
  l.foldr insertSorted []

/-- `np.median` on a list of angles: sort ascending and take the middle
element (odd length) or the mean of the two middle elements (even length). -/
def medianRat (l : List Rat) : Rat :=
  let s := sortRats l
  let n := s.length
  if n % 2 = 1 then s.getD (n / 2) 0
  else (s.getD (n / 2 - 1) 0 + s.getD (n / 2) 0) / 2

/-- scanner.py lines 199-222: `deskew_and_decode(gray)` — Hough-angle
estimation (abstracted to `houghDegs`), the near-vertical filter, the median
test, and the final decode of the rotated image.  Returns the result and the
internal decode attempt trace (one attempt, or none on the early exits). -/
def deskew_and_decode {Img : Type} (env : ScanEnv Img) (gray : Img) :
    ScanResult × List ScanResult :=
  match env.houghDegs gray with
  | none => (⟨none, none⟩, [])
  | some degs =>
    let angles := degs.filterMap fun d =>
      if d < 30 then some d else if d > 150 then some (d - 180) else none
    if angles.isEmpty then (⟨none, none⟩, [])
    else
      let m := medianRat angles
      if |m| < 1 / 2 then (⟨none, none⟩, [])
      else (try_decode env (env.warpRotate gray m), [try_decode env (env.warpRotate gray m)])

/-! ## The tier walk of `scan_barcode` (scanner.py lines 40-147)

The orchestrator is a sequence of stages.  Each stage receives the current
accumulator `best_result` and produces the updated accumulator together with
two traces: `attempts`, the result of every `try_decode` call made while the
stage ran (including calls internal to tier-6 routines), and `merged`, the
sequence of results the orchestrator merged into the accumulator with
`merge_results`.  `stageSeq` chains two stages with the early-return check
`if best_result['main'] and best_result['extension']: return best_result`
that follows every merge in the source. -/

/-- Outcome of (a part of) a `scan_barcode` run: final accumulator, decode
attempt trace, and merged-result trace. -/
structure StageOut where
  res : ScanResult
  attempts : List ScanResult
  merged : List ScanResult
deriving DecidableEq

/-- One `for angle in ...`-style candidate loop of scanner.py (lines 66-72,
75-81, 84-92, 97-103, 108-114, 123-129): decode each candidate image in
order, merge into the accumulator, and stop at the first point where both
fields are set. -/
def runCandidates {Img : Type} (env : ScanEnv Img) (best : ScanResult) :
    List Img → ScanResult × List ScanResult
  | [] => (best, [])
  | img :: rest =>
    if bothSet (merge_results best (try_decode env img)) then
      (merge_results best (try_decode env img), [try_decode env img])
    else
      ((runCandidates env (merge_results best (try_decode env img)) rest).1,
       try_decode env img :: (runCandidates env (merge_results best (try_decode env img)) rest).2)

/-- A candidate loop as a stage: every decoded result is both an attempt and
a merged value. -/
def tierStage {Img : Type} (env : ScanEnv Img) (imgs : List Img) (best : ScanResult) :
    StageOut :=
  ⟨(runCandidates env best imgs).1, (runCandidates env best imgs).2,
   (runCandidates env best imgs).2⟩

/-- A tier-6 routine call as a stage (scanner.py lines 136-137, 142-143):
the routine's internal attempts all count as attempts, but only its single
returned result is merged into the accumulator. -/
def routineStage (f : ScanResult × List ScanResult) (best : ScanResult) : StageOut :=
  ⟨merge_results best f.1, f.2, [f.1]⟩

/-- Sequencing of two stages with the source's early return: if the first
stage ends with both fields set, the run returns there and the second stage
never executes. -/
def stageSeq (s k : ScanResult → StageOut) (best : ScanResult) : StageOut :=
  if bothSet (s best).res then s best
  else
    ⟨(k (s best).res).res,
     (s best).attempts ++ (k (s best).res).attempts,
     (s best).merged ++ (k (s best).res).merged⟩

/-- The four fixed rotations of an image, in the source's order
`[0, 90, 180, 270]`. -/
def rotationsOf {Img : Type} (env : ScanEnv Img) (img : Img) : List Img :=
  [0, 90, 180, 270].map (rotate_image env img)

/-- Tier 3 candidates (scanner.py lines 84-87): the four rotations of each
fixed-threshold binarization, thresholds in order `[140, 160, 180]`. -/
def tier3Imgs {Img : Type} (env : ScanEnv Img) (gray_full : Img) : List Img :=
  (([140, 160, 180] : List Nat).map fun t =>
    rotationsOf env (env.threshold gray_full t)).flatten

/-- Tier 4 (scanner.py lines 95-114): when a crop is available, its four
rotations and then the four rotations of its CLAHE enhancement; otherwise a
no-op stage. -/
def tier4Stage {Img : Type} (env : ScanEnv Img) (cropped : Option Img) :
    ScanResult → StageOut :=
  match cropped with
  | none => fun best => ⟨best, [], []⟩
  | some c =>
    let gray_crop := if env.isColor c then env.cvtGray c else c
    stageSeq (tierStage env (rotationsOf env gray_crop))
      (tierStage env (rotationsOf env (env.clahe gray_crop)))

/-- Tier 5 candidates (scanner.py lines 123-124): small-angle corrections of
the full grayscale image, angles in order `[-5, -3, 3, 5]`. -/
def tier5Imgs {Img : Type} (env : ScanEnv Img) (gray_full : Img) : List Img :=
  ([-5, -3, 3, 5] : List Int).map (env.rotSmall gray_full)

/-- Tier 6 (scanner.py lines 132-145): for the rotations `[0, 90]` of the
full grayscale image, run `upscale_and_clean` then `deskew_and_decode`,
merging and early-exiting after each. -/
def tier6Stage {Img : Type} (env : ScanEnv Img) (gray_full : Img) :
    ScanResult → StageOut :=
  stageSeq (routineStage (upscale_and_clean env (rotate_image env gray_full 0)))
    (stageSeq (routineStage (deskew_and_decode env (rotate_image env gray_full 0)))
      (stageSeq (routineStage (upscale_and_clean env (rotate_image env gray_full 90)))
        (routineStage (deskew_and_decode env (rotate_image env gray_full 90)))))

/-- Tiers 1-4, the cheap tiers (scanner.py lines 65-114): full image
rotations, enhanced image rotations, fixed thresholds, crop.  Note that this
part of the run never consults the quality verdict. -/
def cheapTiers {Img : Type} (env : ScanEnv Img) (gray_full enhanced : Img)
    (cropped : Option Img) : ScanResult → StageOut :=
  stageSeq (tierStage env (rotationsOf env gray_full))
    (stageSeq (tierStage env (rotationsOf env enhanced))
      (stageSeq (tierStage env (tier3Imgs env gray_full))
        (tier4Stage env cropped)))

/-- Tiers 5-6, the expensive tiers (scanner.py lines 122-145). -/
def expensiveTiers {Img : Type} (env : ScanEnv Img) (gray_full : Img) :
    ScanResult → StageOut :=
  stageSeq (tierStage env (tier5Imgs env gray_full)) (tier6Stage env gray_full)

/-- The gate between the cheap and the expensive tiers (scanner.py lines
116-120): `if not quality['scannable'] and not best_result['main']: return
best_result`, else run the expensive tiers. -/
def afterCheap {Img : Type} (env : ScanEnv Img) (gray_full : Img) (quality : Bool)
    (best : ScanResult) : StageOut :=
  if !quality && !truthy best.main then ⟨best, [], []⟩
  else expensiveTiers env gray_full best

/-- scanner.py line 55: the grayscale conversion of the original image. -/
def grayFull {Img : Type} (env : ScanEnv Img) (original : Img) : Img :=
  if env.isColor original then env.cvtGray original else original

/-- scanner.py lines 40-147: `scan_barcode(original, enhanced, cropped)` —
the instrumented tier walk, starting from the empty accumulator. -/
def scan_barcode {Img : Type} (env : ScanEnv Img) (original enhanced : Img)
    (cropped : Option Img) : StageOut :=
  stageSeq (cheapTiers env (grayFull env original) enhanced cropped)
    (afterCheap env (grayFull env original) (env.scannable (grayFull env original)))
    emptyResult

/-! ## The image normalizer (preprocessing.py) -/

/-- Deterministic abstractions of the external primitives used by
preprocessing.py. -/
structure PrepEnv (Img : Type) where
  /-- `cv2.imdecode(np.frombuffer(image_bytes, np.uint8), cv2.IMREAD_COLOR)`
  (preprocessing.py lines 11-12); `none` models the `None` return on bytes
  that are not a valid raster encoding. -/
  imdecode : List Nat → Option Img
  /-- `img.shape[:2]` as `(height, width)`. -/
  shape : Img → Int × Int
  /-- `cv2.barcode.BarcodeDetector().detect(img)` followed by
  `cv2.boundingRect(points[0].astype(int))` (preprocessing.py lines 38-47):
  the detected bounding box `(x, y, w, h)`, or `none` when nothing was
  detected or the detector raised (the `try/except` at lines 37, 63-64). -/
  detect : Img → Option (Int × Int × Int × Int)
  /-- The array slice `img[y:y+h, x:x+w]` (preprocessing.py line 58),
  taking `x y w h` in that order. -/
  crop : Img → Int → Int → Int → Int → Img
  /-- `len(img.shape) == 3` (preprocessing.py line 127). -/
  isColor : Img → Bool
  /-- `cv2.cvtColor(img, cv2.COLOR_BGR2GRAY)` (preprocessing.py line 128). -/
  cvtGray : Img → Img
  /-- `cv2.createCLAHE(clipLimit=2.0, tileGridSize=(8, 8)).apply(gray)`
  (preprocessing.py lines 136-137). -/
  clahe : Img → Img

/-- preprocessing.py lines 36-66: `detect_barcode_region(img)` — run the
localizer; on success pad the bounding box by 20 pixels, clamp it to the
image, and return the slice.  There is no further filtering of the box. -/
def detect_barcode_region {Img : Type} (env : PrepEnv Img) (img : Img) : Option Img :=
  match env.detect img with
  | none => none
  | some (x, y, w, h) =>
    let x1 := max 0 (x - 20)
    let y1 := max 0 (y - 20)
    let w1 := min ((env.shape img).2 - x1) (w + 20 * 2)
    let h1 := min ((env.shape img).1 - y1) (h + 20 * 2)
    some (env.crop img x1 y1 w1 h1)

/-- preprocessing.py lines 126-143: `enhance_image(img)` — CLAHE applied to
the grayscale conversion of its argument. -/
def enhance_image {Img : Type} (env : PrepEnv Img) (img : Img) : Img :=
  env.clahe (if env.isColor img then env.cvtGray img else img)

/-- A Python exception raised by the service code. -/
inductive PyErr where
  | valueError : String → PyErr
deriving DecidableEq

/-- preprocessing.py lines 10-33: `preprocess_image(image_bytes)` — decode
the bytes (raising `ValueError("Could not decode image")` on failure), take
the detected crop (falling back to the whole image), enhance the crop, and
return the pair `(cropped, enhanced)`.  The returned tuple is modelled as a
list so that the caller's tuple unpacking can be expressed; its length is
the tuple's arity, here 2. -/
def preprocess_image {Img : Type} (env : PrepEnv Img) (image_bytes : List Nat) :
    Except PyErr (List Img) :=
  match env.imdecode image_bytes with
  | none => .error (.valueError "Could not decode image")
  | some img =>
    let cropped := match detect_barcode_region env img with
      | none => img
      | some c => c
    .ok [cropped, enhance_image env cropped]

/-! ## The HTTP endpoint (main.py) -/

/-- The observable outcome of a `/scan` request: a JSON success body
`{"upc": ..., "extension": ...}` or an `HTTPException(status_code, detail)`. -/
inductive HttpOut where
  | ok : Option String → Option String → HttpOut
  | err : Nat → String → HttpOut
deriving DecidableEq

/-- main.py lines 34-40: the response shaping after the scan — a falsy
`main` becomes `HTTPException(400, "No barcode found")`, anything else is a
success body carrying `main` as `upc` and the (possibly empty) extension. -/
def respond (result : ScanResult) : HttpOut :=
  if truthy result.main then .ok result.main result.extension
  else .err 400 "No barcode found"

/-- Python tuple unpacking `a, b, c = t`: succeeds exactly on a 3-tuple,
otherwise raises `ValueError` (modelled as `none`). -/
def unpack3 {α : Type} (l : List α) : Option (α × α × α) :=
  match l with
  | [a, b, c] => some (a, b, c)
  | _ => none

/-- main.py lines 23-45: `scan_upc(image)` — preprocess, unpack the three
expected values (main.py line 29), scan, respond; any non-HTTP exception is
turned into `HTTPException(500, str(e))` by the handler at lines 44-45. -/
def scan_upc {Img : Type} (penv : PrepEnv Img) (senv : ScanEnv Img)
    (image_bytes : List Nat) : HttpOut :=
  match preprocess_image penv image_bytes with
  | .error (.valueError msg) => .err 500 msg
  | .ok tup =>
    match unpack3 tup with
    | none => .err 500 "not enough values to unpack"
    | some (original, enhanced, cropped) =>
      respond (scan_barcode senv original enhanced (some cropped)).res

/-- Whether an outcome is a client-input error (an HTTP 4xx response). -/
def isClientError : HttpOut → Bool
  | .err code _ => 400 ≤ code && code < 500
  | .ok _ _ => false

/-! ## Spec-side definition for the merge refinement claim -/

/-- Modelled from the spec: `merge(a, b) = {main: a.main if set else b.main,
extension: a.extension if set else b.extension}` — the first non-empty value
per field wins. -/
def merge_spec (a b : ScanResult) : ScanResult :=
  ⟨if truthy a.main then a.main else b.main,
   if truthy a.extension then a.extension else b.extension⟩

/-! ## Invariants of the tier walk -/

/-- The orchestrator invariant for a stage started at accumulator `best`:
the stage's result is the left fold of `merge_results` over everything it
merged, and no proper prefix of the merged sequence already had both fields
set (had it, the run would have returned earlier). -/
def MergeInv (best : ScanResult) (o : StageOut) : Prop :=
  o.res = o.merged.foldl merge_results best ∧
  ∀ i, i < o.merged.length →
    bothSet ((o.merged.take i).foldl merge_results best) = false

theorem runCandidates_inv {Img : Type} (env : ScanEnv Img) :
    ∀ (imgs : List Img) (best : ScanResult), bothSet best = false →
      (runCandidates env best imgs).1 =
        ((runCandidates env best imgs).2).foldl merge_results best ∧
      ∀ i, i < (runCandidates env best imgs).2.length →
        bothSet (((runCandidates env best imgs).2.take i).foldl merge_results best)
          = false := by
  intro imgs
  induction imgs with
  | nil =>
    intro best hb
    simp [runCandidates]
  | cons img rest ih =>
    intro best hb
    by_cases hbs : bothSet (merge_results best (try_decode env img)) = true
    · constructor
      · simp [runCandidates, hbs]
      · intro i hi
        simp only [runCandidates, hbs, if_pos, List.length_cons,
          List.length_nil] at hi ⊢
        have hi0 : i = 0 := by omega
        subst hi0
        simpa using hb
    · have hbs' : bothSet (merge_results best (try_decode env img)) = false := by
        simpa using hbs
      obtain ⟨ih1, ih2⟩ := ih (merge_results best (try_decode env img)) hbs'
      constructor
      · simp only [runCandidates, hbs', Bool.false_eq_true, if_false]
        simpa using ih1
      · intro i hi
        simp only [runCandidates, hbs', Bool.false_eq_true, if_false,
          List.length_cons] at hi ⊢
        match i with
        | 0 => simpa using hb
        | j + 1 =>
          simp only [List.take_succ_cons, List.foldl_cons]
          exact ih2 j (by omega)

theorem tierStage_inv {Img : Type} (env : ScanEnv Img) (imgs : List Img) :
    ∀ best, bothSet best = false → MergeInv best (tierStage env imgs best) := by
  intro best hb
  obtain ⟨h1, h2⟩ := runCandidates_inv env imgs best hb
  exact ⟨h1, h2⟩

theorem routineStage_inv (f : ScanResult × List ScanResult) :
    ∀ best, bothSet best = false → MergeInv best (routineStage f best) := by
  intro best hb
  constructor
  · simp [routineStage]
  · intro i hi
    simp only [routineStage, List.length_cons, List.length_nil] at hi
    have hi0 : i = 0 := by omega
    subst hi0
    simpa using hb

theorem idOut_inv (best : ScanResult) : MergeInv best ⟨best, [], []⟩ := by
  constructor
  · simp
  · intro i hi
    simp at hi

theorem stageSeq_inv (s k : ScanResult → StageOut)
    (hs : ∀ b, bothSet b = false → MergeInv b (s b))
    (hk : ∀ b, bothSet b = false → MergeInv b (k b)) :
    ∀ b, bothSet b = false → MergeInv b (stageSeq s k b) := by
  intro b hb
  by_cases hres : bothSet (s b).res = true
  · simpa [stageSeq, hres] using hs b hb
  · have hres' : bothSet (s b).res = false := by simpa using hres
    obtain ⟨hs1, hs2⟩ := hs b hb
    obtain ⟨hk1, hk2⟩ := hk (s b).res hres'
    constructor
    · simp only [stageSeq, hres', Bool.false_eq_true, if_false]
      rw [List.foldl_append, ← hs1, hk1]
    · intro i hi
      simp only [stageSeq, hres', Bool.false_eq_true, if_false,
        List.length_append] at hi ⊢
      rw [List.take_append_eq_append_take, List.foldl_append]
      rcases lt_or_le i (s b).merged.length with hlt | hle
      · have h0 : i - (s b).merged.length = 0 := by omega
        rw [h0]
        simpa using hs2 i hlt
      · have htake : (s b).merged.take i = (s b).merged :=
          List.take_of_length_le hle
        rw [htake, ← hs1]
        rcases eq_or_lt_of_le hle with heq | hlt2
        · have h0 : i - (s b).merged.length = 0 := by omega
          rw [h0]
          simpa using hres'
        · exact hk2 (i - (s b).merged.length) (by omega)

theorem tier4Stage_inv {Img : Type} (env : ScanEnv Img) (cropped : Option Img) :
    ∀ b, bothSet b = false → MergeInv b (tier4Stage env cropped b) := by
  cases cropped with
  | none => intro b _; exact idOut_inv b
  | some c =>
    exact stageSeq_inv _ _ (tierStage_inv env _) (tierStage_inv env _)

theorem tier6Stage_inv {Img : Type} (env : ScanEnv Img) (gray_full : Img) :
    ∀ b, bothSet b = false → MergeInv b (tier6Stage env gray_full b) :=
  stageSeq_inv _ _ (routineStage_inv _)
    (stageSeq_inv _ _ (routineStage_inv _)
      (stageSeq_inv _ _ (routineStage_inv _) (routineStage_inv _)))

theorem cheapTiers_inv {Img : Type} (env : ScanEnv Img) (gray_full enhanced : Img)
    (cropped : Option Img) :
    ∀ b, bothSet b = false → MergeInv b (cheapTiers env gray_full enhanced cropped b) :=
  stageSeq_inv _ _ (tierStage_inv env _)
    (stageSeq_inv _ _ (tierStage_inv env _)
      (stageSeq_inv _ _ (tierStage_inv env _) (tier4Stage_inv env cropped)))

theorem expensiveTiers_inv {Img : Type} (env : ScanEnv Img) (gray_full : Img) :
    ∀ b, bothSet b = false → MergeInv b (expensiveTiers env gray_full b) :=
  stageSeq_inv _ _ (tierStage_inv env _) (tier6Stage_inv env gray_full)

theorem afterCheap_inv {Img : Type} (env : ScanEnv Img) (gray_full : Img)
    (quality : Bool) :
    ∀ b, bothSet b = false → MergeInv b (afterCheap env gray_full quality b) := by
  intro b hb
  unfold afterCheap
  by_cases hq : (!quality && !truthy b.main) = true
  · simp only [hq, if_pos]
    exact idOut_inv b
  · simp only [hq, if_false, Bool.false_eq_true]
    exact expensiveTiers_inv env gray_full b hb

theorem scan_barcode_inv {Img : Type} (env : ScanEnv Img) (original enhanced : Img)
    (cropped : Option Img) :
    MergeInv emptyResult (scan_barcode env original enhanced cropped) :=
  stageSeq_inv _ _ (cheapTiers_inv env _ enhanced cropped)
    (afterCheap_inv env _ _) emptyResult rfl

/-! ## Helper lemmas about merging -/

theorem merge_results_main_of_truthy {a b : ScanResult} (h : truthy a.main = true) :
    (merge_results a b).main = a.main := by
  simp [merge_results, pyOrStr, h]

theorem merge_results_extension_of_truthy {a b : ScanResult}
    (h : truthy a.extension = true) :
    (merge_results a b).extension = a.extension := by
  simp [merge_results, pyOrStr, h]

theorem foldl_merge_main_of_truthy (bs : List ScanResult) :
    ∀ a : ScanResult, truthy a.main = true →
      (bs.foldl merge_results a).main = a.main := by
  induction bs with
  | nil => intro a _; rfl
  | cons b bs ih =>
    intro a h
    rw [List.foldl_cons]
    have hm : (merge_results a b).main = a.main := merge_results_main_of_truthy h
    rw [ih (merge_results a b) (by rw [hm]; exact h), hm]

theorem foldl_merge_extension_of_truthy (bs : List ScanResult) :
    ∀ a : ScanResult, truthy a.extension = true →
      (bs.foldl merge_results a).extension = a.extension := by
  induction bs with
  | nil => intro a _; rfl
  | cons b bs ih =>
    intro a h
    rw [List.foldl_cons]
    have hm : (merge_results a b).extension = a.extension :=
      merge_results_extension_of_truthy h
    rw [ih (merge_results a b) (by rw [hm]; exact h), hm]

/-! ## Helper lemmas about the decode adapter -/

theorem updSymbol_main_of_not {b : ZBarSymbol} (r : ScanResult)
    (h : isMainType b.stype = false) : (updSymbol r b).main = r.main := by
  unfold updSymbol
  rw [if_neg (by simp [h])]
  split <;> rfl

theorem updSymbol_extension_of_not {b : ZBarSymbol} (r : ScanResult)
    (h : ¬ b.stype = "EAN5") : (updSymbol r b).extension = r.extension := by
  unfold updSymbol
  split
  · rfl
  · simp [h]

theorem foldl_upd_main_of_all_not (post : List ZBarSymbol) :
    ∀ r : ScanResult, (∀ b' ∈ post, isMainType b'.stype = false) →
      (post.foldl updSymbol r).main = r.main := by
  induction post with
  | nil => intro r _; rfl
  | cons b bs ih =>
    intro r h
    rw [List.foldl_cons, ih _ fun b' hb' => h b' (List.mem_cons_of_mem b hb'),
      updSymbol_main_of_not r (h b (List.mem_cons_self b bs))]

theorem foldl_upd_extension_of_all_not (post : List ZBarSymbol) :
    ∀ r : ScanResult, (∀ b' ∈ post, ¬ b'.stype = "EAN5") →
      (post.foldl updSymbol r).extension = r.extension := by
  induction post with
  | nil => intro r _; rfl
  | cons b bs ih =>
    intro r h
    rw [List.foldl_cons, ih _ fun b' hb' => h b' (List.mem_cons_of_mem b hb'),
      updSymbol_extension_of_not r (h b (List.mem_cons_self b bs))]

/-! ## Concrete model instances

Small executable instantiations of the environments, used to evaluate the
embedded code on concrete inputs.  Images are identifiers (`Nat`), or
`(height, width)` pairs where geometry matters; each primitive maps
identifiers to identifiers. -/

/-- A scan environment over `Nat` images in which nothing decodes except the
image produced inside `upscale_and_clean` by thresholding the upscaled image
at 140 (identifier 210), which yields an EAN-5 extension and no main code.
Fields in order: pyzbar, isColor, cvtGray, scannable, rot90cw, rot180,
rot90ccw, rotSmall, warpRotate, threshold, clahe, width, resize3, gauss3,
otsu, bitwiseNot, hblur, houghDegs. -/
def envC1 : ScanEnv Nat :=
  ⟨fun i => if i = 210 then [⟨"EAN5", "12345"⟩] else [],
   fun _ => false,
   fun i => i,
   fun _ => true,
   fun i => i,
   fun i => i,
   fun i => i,
   fun i _ => i,
   fun i _ => i,
   fun i t => 10 * i + t,
   fun i => i,
   fun _ => 300,
   fun _ => 7,
   fun _ => 3,
   fun i => i + 1,
   fun i => i + 1,
   fun _ => 6,
   fun _ => none⟩

/-- A scan environment over `Nat` images in which image 5 decodes to a UPC-A
symbol followed by an EAN-13 symbol, and image 6 decodes to one EAN-5
symbol.  All other fields are as in `envC1`. -/
def envC4 : ScanEnv Nat :=
  ⟨fun i =>
      if i = 5 then [⟨"UPCA", "111111111111"⟩, ⟨"EAN13", "2222222222222"⟩]
      else if i = 6 then [⟨"EAN5", "54321"⟩] else [],
   fun _ => false,
   fun i => i,
   fun _ => true,
   fun i => i,
   fun i => i,
   fun i => i,
   fun i _ => i,
   fun i _ => i,
   fun i t => 10 * i + t,
   fun i => i,
   fun _ => 300,
   fun _ => 7,
   fun _ => 3,
   fun i => i + 1,
   fun i => i + 1,
   fun _ => 6,
   fun _ => none⟩

/-- A scan environment over `Nat` images in which nothing ever decodes and
the quality verdict is `false`.  All other fields are as in `envC1`. -/
def envC6 : ScanEnv Nat :=
  ⟨fun _ => [],
   fun _ => false,
   fun i => i,
   fun _ => false,
   fun i => i,
   fun i => i,
   fun i => i,
   fun i _ => i,
   fun i _ => i,
   fun i t => 10 * i + t,
   fun i => i,
   fun _ => 300,
   fun _ => 7,
   fun _ => 3,
   fun i => i + 1,
   fun i => i + 1,
   fun _ => 6,
   fun _ => none⟩

/-- Replace the quality-verdict primitive of a scan environment, leaving
every other primitive unchanged. -/
def setScannable {Img : Type} (env : ScanEnv Img) (f : Img → Bool) : ScanEnv Img :=
  ⟨env.pyzbar, env.isColor, env.cvtGray, f, env.rot90cw, env.rot180, env.rot90ccw,
   env.rotSmall, env.warpRotate, env.threshold, env.clahe, env.width, env.resize3,
   env.gauss3, env.otsu, env.bitwiseNot, env.hblur, env.houghDegs⟩

/-- A preprocessing environment over `Nat` images: every byte string decodes
to image 0 of size 100×100, the localizer reports the box (10, 10, 30, 30),
the slice operation yields image 50, and CLAHE maps image `i` to `i + 1`.
Fields in order: imdecode, shape, detect, crop, isColor, cvtGray, clahe. -/
def prepEnvC3 : PrepEnv Nat :=
  ⟨fun _ => some 0,
   fun _ => (100, 100),
   fun _ => some (10, 10, 30, 30),
   fun _ _ _ _ _ => 50,
   fun _ => false,
   fun i => i,
   fun i => i + 1⟩

/-- A preprocessing environment whose images are `(height, width)` pairs:
the localizer reports a box covering the whole 100×100 image, and the slice
operation returns the dimensions of the requested window. -/
def prepEnvC5 : PrepEnv (Int × Int) :=
  ⟨fun _ => some (100, 100),
   fun img => img,
   fun _ => some (0, 0, 100, 100),
   fun _ _ _ w h => (h, w),
   fun _ => false,
   fun p => p,
   fun p => p⟩

/-- A preprocessing environment over `Nat` images in which no byte string is
a valid raster encoding (`cv2.imdecode` returns `None`). -/
def prepEnvC8 : PrepEnv Nat :=
  ⟨fun _ => none,
   fun _ => (100, 100),
   fun _ => some (10, 10, 30, 30),
   fun _ _ _ _ _ => 50,
   fun _ => false,
   fun i => i,
   fun i => i + 1⟩

/-! ## Claim theorems -/

/-- Claim C1, counterexample: it is not true that after every candidate
decode attempt the accumulator is updated as `best = merge(best, result)`
with no attempt's result discarded — in `envC1` one internal attempt of
tier 6's `upscale_and_clean` finds an EAN-5 extension, the routine drops it
(its threshold loop keeps only results with a main code), and the run ends
empty, so the final accumulator differs from the merge-fold of the full
attempt trace. -/
theorem scan_barcode_discards_attempt_cx :
    ¬ ((scan_barcode envC1 0 0 none).res =
        ((scan_barcode envC1 0 0 none).attempts).foldl merge_results emptyResult) := by
  decide

/-- Claim C1, amended: for every run of the orchestrator, after every
candidate result returned to the orchestrator's own merge sites the
accumulator is `best = merge(best, result)` — the final result is the
merge-fold of the merged-result sequence — and as soon as both fields are
set the run terminates, no proper prefix of that sequence already having
both fields set.  (Internal attempts of `upscale_and_clean` are not merge
sites and may be discarded, per the counterexample.) -/
theorem scan_barcode_merge_invariant (Img : Type) (env : ScanEnv Img)
    (original enhanced : Img) (cropped : Option Img) :
    (scan_barcode env original enhanced cropped).res =
      ((scan_barcode env original enhanced cropped).merged).foldl
        merge_results emptyResult ∧
    ∀ i, i < (scan_barcode env original enhanced cropped).merged.length →
      bothSet (((scan_barcode env original enhanced cropped).merged.take i).foldl
        merge_results emptyResult) = false :=
  scan_barcode_inv env original enhanced cropped

/-- Witness for `scan_barcode_merge_invariant` at the concrete environment
`envC1`. -/
theorem scan_barcode_merge_invariant_wit :
    (scan_barcode envC1 0 0 none).res =
      ((scan_barcode envC1 0 0 none).merged).foldl merge_results emptyResult ∧
    bothSet (((scan_barcode envC1 0 0 none).merged.take 3).foldl
      merge_results emptyResult) = false :=
  ⟨(scan_barcode_merge_invariant Nat envC1 0 0 none).1,
   (scan_barcode_merge_invariant Nat envC1 0 0 none).2 3 (by decide)⟩

/-- Claim C2: `merge_results` agrees with the spec's merge (first non-empty
value per field wins, shown also on the spec's own example), and a field
that is set (truthy) is never cleared or overwritten by any later sequence
of merges. -/
theorem merge_results_spec_and_monotone :
    (∀ a b : ScanResult, merge_results a b = merge_spec a b) ∧
    merge_results ⟨some "X", none⟩ ⟨none, none⟩ = ⟨some "X", none⟩ ∧
    (∀ (a : ScanResult) (bs : List ScanResult), truthy a.main = true →
      (bs.foldl merge_results a).main = a.main) ∧
    (∀ (a : ScanResult) (bs : List ScanResult), truthy a.extension = true →
      (bs.foldl merge_results a).extension = a.extension) :=
  ⟨fun _ _ => rfl, by decide,
   fun a bs h => foldl_merge_main_of_truthy bs a h,
   fun a bs h => foldl_merge_extension_of_truthy bs a h⟩

/-- Witness for `merge_results_spec_and_monotone` at concrete results. -/
theorem merge_results_spec_and_monotone_wit :
    merge_results ⟨some "A", none⟩ ⟨some "B", some "C"⟩ =
      merge_spec ⟨some "A", none⟩ ⟨some "B", some "C"⟩ ∧
    (([⟨some "B", some "C"⟩] : List ScanResult).foldl merge_results
      ⟨some "A", some "E"⟩).main = some "A" ∧
    (([⟨some "B", some "C"⟩] : List ScanResult).foldl merge_results
      ⟨some "A", some "E"⟩).extension = some "E" :=
  ⟨merge_results_spec_and_monotone.1 ⟨some "A", none⟩ ⟨some "B", some "C"⟩,
   merge_results_spec_and_monotone.2.2.1 ⟨some "A", some "E"⟩
     [⟨some "B", some "C"⟩] (by decide),
   merge_results_spec_and_monotone.2.2.2 ⟨some "A", some "E"⟩
     [⟨some "B", some "C"⟩] (by decide)⟩

/-- Claim C3, failing behaviour: `preprocess_image` returns the 2-tuple
`(cropped_or_full, enhanced)` — not the documented triple — with `enhanced`
computed from the crop (CLAHE of image 50, the crop, giving 51; CLAHE of the
original image 0 would give 1), so the caller's three-way unpacking in
main.py fails and every request with a decodable image is answered with an
HTTP 500. -/
theorem preprocess_image_pair_bug :
    preprocess_image prepEnvC3 [0] = .ok [50, 51] ∧
    enhance_image prepEnvC3 50 = 51 ∧
    enhance_image prepEnvC3 0 = 1 ∧
    unpack3 [(50 : Nat), 51] = none ∧
    scan_upc prepEnvC3 envC1 [0] = .err 500 "not enough values to unpack" :=
  ⟨rfl, rfl, rfl, rfl, by decide⟩

/-- Claim C4, counterexample: when `pyzbar` returns a UPC-A symbol followed
by an EAN-13 symbol, `try_decode` sets `main` to the second (last) symbol's
payload, not the first's as the claim states. -/
theorem try_decode_last_symbol_cx :
    (try_decode envC4 5).main = some "2222222222222" ∧
    ¬ (try_decode envC4 5).main = some "111111111111" := by decide

/-- Claim C4, amended: each UPC-A/UPC-E/EAN-13 symbol assigns the result's
`main` field and each EAN-5 symbol assigns `extension`, so when several
symbols of a kind are returned the last one wins. -/
theorem try_decode_last_symbol_wins :
    (∀ (Img : Type) (env : ScanEnv Img) (img : Img) (pre post : List ZBarSymbol)
        (b : ZBarSymbol),
      env.pyzbar img = pre ++ b :: post →
      isMainType b.stype = true →
      (∀ b' ∈ post, isMainType b'.stype = false) →
      (try_decode env img).main = some b.data) ∧
    (∀ (Img : Type) (env : ScanEnv Img) (img : Img) (pre post : List ZBarSymbol)
        (b : ZBarSymbol),
      env.pyzbar img = pre ++ b :: post →
      b.stype = "EAN5" →
      (∀ b' ∈ post, ¬ b'.stype = "EAN5") →
      (try_decode env img).extension = some b.data) := by
  constructor
  · intro Img env img pre post b hpy hb hpost
    unfold try_decode
    rw [hpy, List.foldl_append, List.foldl_cons,
      foldl_upd_main_of_all_not post _ hpost]
    simp [updSymbol, hb]
  · intro Img env img pre post b hpy hb hpost
    unfold try_decode
    rw [hpy, List.foldl_append, List.foldl_cons,
      foldl_upd_extension_of_all_not post _ hpost]
    have h5 : isMainType "EAN5" = false := by decide
    simp [updSymbol, hb, h5]

/-- Witness for `try_decode_last_symbol_wins` at the concrete environment
`envC4`. -/
theorem try_decode_last_symbol_wins_wit :
    (try_decode envC4 5).main = some "2222222222222" ∧
    (try_decode envC4 6).extension = some "54321" :=
  ⟨try_decode_last_symbol_wins.1 Nat envC4 5 [⟨"UPCA", "111111111111"⟩] []
      ⟨"EAN13", "2222222222222"⟩ rfl (by decide) (by simp),
   try_decode_last_symbol_wins.2 Nat envC4 6 [] [] ⟨"EAN5", "54321"⟩
     rfl rfl (by simp)⟩

/-- Claim C5, counterexample: a localization result whose padded crop covers
100% of the image area (more than 60%) is not discarded — the Normalizer
yields the non-empty 100×100 crop of the 100×100 image. -/
theorem detect_barcode_region_large_crop_cx :
    detect_barcode_region prepEnvC5 (100, 100) = some (100, 100) ∧
    (100 : Int) * 100 * 100 >
      60 * ((prepEnvC5.shape (100, 100)).1 * (prepEnvC5.shape (100, 100)).2) := by
  decide

/-- Claim C5, amended: the Normalizer applies no area-based rejection:
whenever the localizer reports a box, `detect_barcode_region` returns the
crop of the 20-pixel-padded, image-clamped box regardless of how much of the
image it covers. -/
theorem detect_barcode_region_no_area_check :
    ∀ (Img : Type) (env : PrepEnv Img) (img : Img) (x y w h : Int),
      env.detect img = some (x, y, w, h) →
      detect_barcode_region env img =
        some (env.crop img (max 0 (x - 20)) (max 0 (y - 20))
          (min ((env.shape img).2 - max 0 (x - 20)) (w + 20 * 2))
          (min ((env.shape img).1 - max 0 (y - 20)) (h + 20 * 2))) := by
  intro Img env img x y w h hdet
  unfold detect_barcode_region
  rw [hdet]

/-- Witness for `detect_barcode_region_no_area_check` at the concrete
environment `prepEnvC5`. -/
theorem detect_barcode_region_no_area_check_wit :
    prepEnvC5.detect (100, 100) = some (0, 0, 100, 100) ∧
    detect_barcode_region prepEnvC5 (100, 100) =
      some (prepEnvC5.crop (100, 100) (max 0 (0 - 20)) (max 0 (0 - 20))
        (min ((prepEnvC5.shape (100, 100)).2 - max 0 (0 - 20)) (100 + 20 * 2))
        (min ((prepEnvC5.shape (100, 100)).1 - max 0 (0 - 20)) (100 + 20 * 2))) :=
  ⟨rfl, detect_barcode_region_no_area_check (Int × Int) prepEnvC5 (100, 100)
    0 0 100 100 rfl⟩

/-- Claim C6: the quality verdict never influences tiers 1-4 (the cheap
tiers are the same function for any verdict, and their attempts are always a
prefix of the run's attempts), and when the cheap tiers found nothing and
the verdict is not-scannable, the run returns the empty accumulator with no
expensive-tier decode attempt. -/
theorem quality_gate_only_gates_expensive :
    (∀ (Img : Type) (env : ScanEnv Img) (f : Img → Bool) (g e : Img)
        (c : Option Img) (b : ScanResult),
      cheapTiers (setScannable env f) g e c b = cheapTiers env g e c b) ∧
    (∀ (Img : Type) (env : ScanEnv Img) (o e : Img) (c : Option Img),
      ∃ rest, (scan_barcode env o e c).attempts =
        (cheapTiers env (grayFull env o) e c emptyResult).attempts ++ rest) ∧
    (∀ (Img : Type) (env : ScanEnv Img) (o e : Img) (c : Option Img),
      env.scannable (grayFull env o) = false →
      (cheapTiers env (grayFull env o) e c emptyResult).res = emptyResult →
      scan_barcode env o e c =
        ⟨emptyResult, (cheapTiers env (grayFull env o) e c emptyResult).attempts,
         (cheapTiers env (grayFull env o) e c emptyResult).merged⟩) := by
  refine ⟨fun Img env f g e c b => rfl, ?_, ?_⟩
  · intro Img env o e c
    unfold scan_barcode stageSeq
    by_cases hres : bothSet ((cheapTiers env (grayFull env o) e c) emptyResult).res = true
    · exact ⟨[], by simp [hres]⟩
    · refine ⟨(afterCheap env (grayFull env o) (env.scannable (grayFull env o))
        ((cheapTiers env (grayFull env o) e c) emptyResult).res).attempts, ?_⟩
      simp [hres]
  · intro Img env o e c hq hres
    unfold scan_barcode stageSeq afterCheap
    rw [hres, hq]
    simp [emptyResult, bothSet, truthy]

/-- Witness for `quality_gate_only_gates_expensive` at the concrete
environment `envC6`. -/
theorem quality_gate_only_gates_expensive_wit :
    cheapTiers (setScannable envC6 fun _ => true) (grayFull envC6 0) 0 none
        emptyResult
      = cheapTiers envC6 (grayFull envC6 0) 0 none emptyResult ∧
    scan_barcode envC6 0 0 none =
      ⟨emptyResult, (cheapTiers envC6 (grayFull envC6 0) 0 none emptyResult).attempts,
       (cheapTiers envC6 (grayFull envC6 0) 0 none emptyResult).merged⟩ :=
  ⟨quality_gate_only_gates_expensive.1 Nat envC6 (fun _ => true)
     (grayFull envC6 0) 0 none emptyResult,
   quality_gate_only_gates_expensive.2.2 Nat envC6 0 0 none rfl (by decide)⟩

/-- Claim C7: a scan result with a truthy `main` is returned to the caller
as a success carrying the (possibly empty) extension, and only a result with
no truthy `main` becomes the user-visible 400 "No barcode found". -/
theorem scan_upc_result_handling (r : ScanResult) :
    (truthy r.main = true → respond r = .ok r.main r.extension) ∧
    (truthy r.main = false → respond r = .err 400 "No barcode found") := by
  constructor <;> intro h <;> simp [respond, h]

/-- Witness for `scan_upc_result_handling` on a PARTIAL result (main set,
extension empty) and on the EMPTY result. -/
theorem scan_upc_result_handling_wit :
    respond ⟨some "036000291452", none⟩ = .ok (some "036000291452") none ∧
    respond ⟨none, none⟩ = .err 400 "No barcode found" :=
  ⟨(scan_upc_result_handling ⟨some "036000291452", none⟩).1 (by decide),
   (scan_upc_result_handling ⟨none, none⟩).2 (by decide)⟩

/-- Claim C8, counterexample: bytes that are not a valid raster encoding are
answered with HTTP 500 (the generic exception handler), which is not a
client-input (4xx) error as the claim states. -/
theorem imdecode_failure_cx :
    scan_upc prepEnvC8 envC1 [9] = .err 500 "Could not decode image" ∧
    isClientError (scan_upc prepEnvC8 envC1 [9]) = false := by decide

/-- Claim C8, amended: for every input whose bytes are not a valid raster
encoding, processing fails with the fatal decode error, surfaced to the
caller as an HTTP 500 server error. -/
theorem imdecode_failure_is_500 :
    ∀ (Img : Type) (penv : PrepEnv Img) (senv : ScanEnv Img) (bs : List Nat),
      penv.imdecode bs = none →
      scan_upc penv senv bs = .err 500 "Could not decode image" := by
  intro Img penv senv bs h
  unfold scan_upc preprocess_image
  rw [h]

/-- Witness for `imdecode_failure_is_500` at the concrete environment
`prepEnvC8`. -/
theorem imdecode_failure_is_500_wit :
    prepEnvC8.imdecode [9] = none ∧
    scan_upc prepEnvC8 envC1 [9] = .err 500 "Could not decode image" :=
  ⟨rfl, imdecode_failure_is_500 Nat prepEnvC8 envC1 [9] rfl⟩

/-- Claim C9: the orchestrator is a pure function of its inputs — the
embedding has no source of nondeterminism, since the Python pipeline
consults no randomness, time or external state — so two runs on identical
inputs produce identical results. -/
theorem scan_barcode_deterministic :
    ∀ (Img : Type) (env : ScanEnv Img) (o1 o2 e1 e2 : Img) (c1 c2 : Option Img),
      o1 = o2 → e1 = e2 → c1 = c2 →
      (scan_barcode env o1 e1 c1).res = (scan_barcode env o2 e2 c2).res := by
  intro Img env o1 o2 e1 e2 c1 c2 h1 h2 h3
  rw [h1, h2, h3]

/-- Witness for `scan_barcode_deterministic` at the concrete environment
`envC1`. -/
theorem scan_barcode_deterministic_wit :
    (scan_barcode envC1 0 0 none).res = (scan_barcode envC1 0 0 none).res :=
  scan_barcode_deterministic Nat envC1 0 0 0 0 none none rfl rfl rfl

/-- Claim C10: an empty-string payload behaves like an absent value: in a
merge it never counts as set (a later non-empty payload overwrites it), it
never satisfies the both-fields-set early-termination guard of the
orchestrator, and a result whose `main` is the empty string is reported
upstream as 400 "No barcode found". -/
theorem empty_string_behaves_as_absent :
    (∀ (e : Option String) (b : ScanResult),
      (merge_results ⟨some "", e⟩ b).main = b.main) ∧
    (∀ (m : Option String) (b : ScanResult),
      (merge_results ⟨m, some ""⟩ b).extension = b.extension) ∧
    merge_results ⟨some "", none⟩ ⟨some "X", none⟩ = ⟨some "X", none⟩ ∧
    (∀ x : Option String, bothSet ⟨some "", x⟩ = false) ∧
    (∀ x : Option String, bothSet ⟨x, some ""⟩ = false) ∧
    (∀ e : Option String, respond ⟨some "", e⟩ = .err 400 "No barcode found") := by
  refine ⟨fun e b => rfl, fun m b => rfl, by decide, fun x => rfl, ?_, fun e => rfl⟩
  intro x
  unfold bothSet
  rw [show truthy (some "") = false from rfl, Bool.and_false]
